import Mathlib

/-!
Verification development for the grant-enricher-workflow repository
(langgraph_analyzer package): a shallow embedding of the six-stage
subsidy-analysis pipeline and proofs about it.

Sources embedded: src/langgraph_analyzer/utils.py, nodes.py, graph.py,
schemas.py.  External collaborators (the HTTP stack, the PDF text
extractor, the language-model client, the filesystem and the wall clock)
are modelled as an oracle environment, matching the spec's collaborator
contracts.  Python dictionaries are modelled as insertion-ordered
association lists with Python dict update semantics; machine "Any"
values flowing through the state are modelled by a JSON value type.
-/

set_option autoImplicit false

namespace GrantEnricher

/-! ### JSON values (Python dict/list/str/int/bool/None payloads) -/

/-- JSON-like value, modelling the Python objects held in the run state.
Numeric values are modelled as integers (no claim depends on numeric
values; JSON float syntax is still accepted by the parser below, with
the fractional part discarded). -/
inductive Json where
  | null : Json
  | bool (b : Bool) : Json
  | num (n : Int) : Json
  | str (s : String) : Json
  | arr (elems : List Json) : Json
  | obj (entries : List (String × Json)) : Json

/-- A Python dict with string keys: insertion-ordered association list. -/
abbrev JDict := List (String × Json)

/-- Python truthiness of a value (bool(x)). -/
def Json.truthy : Json → Bool
  | .null => false
  | .bool b => b
  | .num n => n != 0
  | .str s => s != ""
  | .arr xs => !xs.isEmpty
  | .obj kvs => !kvs.isEmpty

/-- Rendering of a value inside a Python f-string (str(x)).  Faithful for
the scalar cases that actually occur; containers are abbreviated (no
modelled code path formats a container into a URL or filename). -/
def Json.pyStr : Json → String
  | .null => "None"
  | .bool b => if b then "True" else "False"
  | .num n => toString n
  | .str s => s
  | .arr _ => "[...]"
  | .obj _ => "\x7b...\x7d"

/-- dict.get: first binding of the key (bindings are kept unique by
dictSet, mirroring Python dict keys). -/
def getKey : JDict → String → Option Json
  | [], _ => none
  | (k, v) :: rest, key => if k == key then some v else getKey rest key

/-- d[k] = v with Python dict semantics: an existing key keeps its
position and gets the new value, a new key is appended. -/
def dictSet : JDict → String → Json → JDict
  | [], key, v => [(key, v)]
  | (k1, v1) :: rest, key, v =>
    if k1 == key then (key, v) :: rest else (k1, v1) :: dictSet rest key v

/-- d.update(other): shallow merge, incoming keys overwrite. -/
def dictUpdate (d : JDict) (incoming : JDict) : JDict :=
  incoming.foldl (fun acc kv => dictSet acc kv.1 kv.2) d

/-- Python `a or b` over optional lookups: the first truthy value wins,
otherwise the second lookup's value (or None when absent). -/
def pyOrJ (a b : Option Json) : Json :=
  match a with
  | some v => if v.truthy then v else b.getD Json.null
  | none => b.getD Json.null

/-- Python `a or b or dflt` with a truthy literal default: the first
truthy value, else the default. -/
def pyOrD (a : Option Json) (dflt : Json) : Json :=
  match a with
  | some v => if v.truthy then v else dflt
  | none => dflt

/-! ### utils.py -/

/-- utils.extract_bdns_from_url: re.search(r'/(\d+)$', url) — the URL
must end in a slash followed by one or more digits; the digit run is the
code.  (\d is modelled as ASCII digits.) -/
def extract_bdns_from_url (url : String) : Option String :=
  let rev := url.toList.reverse
  let ds := rev.takeWhile Char.isDigit
  match ds, rev.drop ds.length with
  | [], _ => none
  | _ :: _, '/' :: _ => some (String.mk ds.reverse)
  | _ :: _, _ => none

/-- Python \w restricted to the ASCII range: letters, digits, underscore. -/
def isWordChar (c : Char) : Bool := c.isAlphanum || c == '_'

/-- A character collapsed by re.sub(r'[-\s]+', '_'): whitespace or hyphen. -/
def isSepChar (c : Char) : Bool := c.isWhitespace || c == '-'

/-- Replace each maximal run of separator characters by one underscore.
The flag records whether the previous character was part of a run. -/
def collapseSeps : Bool → List Char → List Char
  | _, [] => []
  | prevSep, c :: rest =>
    if isSepChar c then
      if prevSep then collapseSeps true rest
      else '_' :: collapseSeps true rest
    else c :: collapseSeps false rest

/-- utils.clean_filename with the default max_length = 50:
strip characters outside [\w\s-], collapse [-\s]+ runs to single
underscores, truncate to 50 characters. -/
def clean_filename (filename : String) : String :=
  let step1 := filename.toList.filter (fun c => isWordChar c || isSepChar c)
  String.mk ((collapseSeps false step1).take 50)

/-- utils.validate_pdf_content: content.startswith(b'%PDF'), on raw bytes. -/
def validate_pdf_content (content : List Nat) : Bool :=
  [37, 80, 68, 70].isPrefixOf content

/-- Python str.strip(): drop leading and trailing whitespace. -/
def pyStrip (s : String) : String :=
  String.mk
    (((s.toList.dropWhile Char.isWhitespace).reverse.dropWhile Char.isWhitespace).reverse)

/-- Python str.lower(), character by character. -/
def pyLower (s : String) : String := String.mk (s.toList.map Char.toLower)

/-- Python str.endswith(suffix). -/
def strEndsWith (s suffix : String) : Bool := suffix.toList.isSuffixOf s.toList

/-- Substring containment, modelling Python `needle in hay`. -/
def containsSub (needle : List Char) : List Char → Bool
  | [] => needle.isEmpty
  | c :: rest => needle.isPrefixOf (c :: rest) || containsSub needle rest

/-! ### The greedy brace span of re.search(r'\x7b.*\x7d', text, re.DOTALL) -/

/-- Longest prefix of the list that ends with a closing brace, i.e. the
part up to and including the last closing brace; none when there is no
closing brace at all. -/
def takeToLastRBrace : List Char → Option (List Char)
  | [] => none
  | c :: rest =>
    match takeToLastRBrace rest with
    | some t => some (c :: t)
    | none => if c == Char.ofNat 125 then some [c] else none

/-- The greedy DOTALL match of an opening brace followed by anything up
to the last closing brace: from the first opening brace of the text to
the last closing brace after it. -/
def jsonSpanList (cs : List Char) : Option (List Char) :=
  match cs.dropWhile (fun c => c != Char.ofNat 123) with
  | [] => none
  | c :: rest => (takeToLastRBrace rest).map (fun t => c :: t)

def jsonSpan (s : String) : Option String :=
  (jsonSpanList s.toList).map String.mk

/-! ### json.loads, modelled by a fuel-indexed recursive-descent parser -/

/-- JSON whitespace accepted between tokens by json.loads:
space, horizontal tab, line feed, carriage return. -/
def isJsonWs (c : Char) : Bool :=
  [32, 9, 10, 13].contains c.toNat

def skipWs (cs : List Char) : List Char := cs.dropWhile isJsonWs

/-- The value of one hexadecimal digit, over the three code ranges. -/
def hexVal (c : Char) : Option Nat :=
  let n := c.toNat
  if 48 ≤ n ∧ n ≤ 57 then some (n - 48)
  else if 97 ≤ n ∧ n ≤ 102 then some (n - 87)
  else if 65 ≤ n ∧ n ≤ 70 then some (n - 55)
  else none

/-- The single-character JSON string escapes, as a lookup table from
escape letter to decoded character. -/
def escTable : List (Char × Char) :=
  [('n', '\n'), ('t', '\t'), ('r', Char.ofNat 13), ('b', Char.ofNat 8),
   ('f', Char.ofNat 12), ('"', '"'), ('/', '/'), ('\\', '\\')]

def escChar (c : Char) : Option Char :=
  (escTable.find? (fun p => p.1 == c)).map Prod.snd

/-- Body of a JSON string, after the opening quote; returns the decoded
string and the remainder after the closing quote. -/
def parseStringAux : List Char → List Char → Option (String × List Char)
  | _, [] => none
  | acc, c :: rest =>
    if c == '"' then some (String.mk acc.reverse, rest)
    else if c == '\\' then
      match rest with
      | [] => none
      | e :: rest2 =>
        if e == 'u' then
          match rest2 with
          | h1 :: h2 :: h3 :: h4 :: rest3 =>
            match hexVal h1, hexVal h2, hexVal h3, hexVal h4 with
            | some v1, some v2, some v3, some v4 =>
              parseStringAux (Char.ofNat (((v1 * 16 + v2) * 16 + v3) * 16 + v4) :: acc) rest3
            | _, _, _, _ => none
          | _ => none
        else
          match escChar e with
          | some ch => parseStringAux (ch :: acc) rest2
          | none => none
    else if c.toNat < 32 then none
    else parseStringAux (c :: acc) rest

/-- Optional fraction part of a JSON number (the value is discarded). -/
def skipFrac : List Char → Option (List Char)
  | '.' :: r =>
    let fs := r.takeWhile Char.isDigit
    if fs.isEmpty then none else some (r.drop fs.length)
  | cs => some cs

/-- Optional exponent part of a JSON number (the value is discarded). -/
def skipExp : List Char → Option (List Char)
  | [] => some []
  | c :: r =>
    if c == 'e' || c == 'E' then
      let r2 := match r with
        | s :: rest => if s == '+' || s == '-' then rest else s :: rest
        | [] => []
      let ds := r2.takeWhile Char.isDigit
      if ds.isEmpty then none else some (r2.drop ds.length)
    else some (c :: r)

/-- JSON number: -?(0|[1-9][0-9]*)(.[0-9]+)?([eE][+-]?[0-9]+)? -/
def parseNum (cs : List Char) : Option (Json × List Char) :=
  let signed := match cs with
    | '-' :: r => (true, r)
    | _ => (false, cs)
  let ds := signed.2.takeWhile Char.isDigit
  let rest := signed.2.drop ds.length
  if ds.isEmpty then none
  else if ds.length > 1 && ds.head? == some '0' then none
  else
    let iv : Int := Int.ofNat (ds.foldl (fun a c => a * 10 + (c.toNat - 48)) 0)
    match skipFrac rest with
    | none => none
    | some rest2 =>
      match skipExp rest2 with
      | none => none
      | some rest3 => some (.num (if signed.1 then -iv else iv), rest3)

mutual

/-- One JSON value; fuel bounds the nesting recursion. -/
def parseValue : Nat → List Char → Option (Json × List Char)
  | 0, _ => none
  | fuel + 1, cs =>
    match skipWs cs with
    | [] => none
    | c :: rest =>
      if c == Char.ofNat 123 then
        match skipWs rest with
        | [] => none
        | c2 :: rest2 =>
          if c2 == Char.ofNat 125 then some (.obj [], rest2)
          else parseMembers fuel (c2 :: rest2) []
      else if c == '[' then
        match skipWs rest with
        | [] => none
        | c2 :: rest2 =>
          if c2 == ']' then some (.arr [], rest2)
          else parseElems fuel (c2 :: rest2) []
      else if c == '"' then
        (parseStringAux [] rest).map (fun p => (.str p.1, p.2))
      else if c == 'n' then
        if ['u', 'l', 'l'].isPrefixOf rest then some (.null, rest.drop 3) else none
      else if c == 't' then
        if ['r', 'u', 'e'].isPrefixOf rest then some (.bool true, rest.drop 3) else none
      else if c == 'f' then
        if ['a', 'l', 's', 'e'].isPrefixOf rest then some (.bool false, rest.drop 4) else none
      else if c == '-' || c.isDigit then parseNum (c :: rest)
      else none

/-- Members of a JSON object after the opening brace (at least one
member present).  Duplicate keys overwrite, as in Python dicts. -/
def parseMembers : Nat → List Char → JDict → Option (Json × List Char)
  | 0, _, _ => none
  | fuel + 1, cs, acc =>
    match skipWs cs with
    | '"' :: rest =>
      match parseStringAux [] rest with
      | none => none
      | some (key, r1) =>
        match skipWs r1 with
        | ':' :: r2 =>
          match parseValue fuel r2 with
          | none => none
          | some (v, r3) =>
            let acc2 := dictSet acc key v
            match skipWs r3 with
            | ',' :: r4 => parseMembers fuel r4 acc2
            | c :: r4 => if c == Char.ofNat 125 then some (.obj acc2, r4) else none
            | [] => none
        | _ => none
    | _ => none

/-- Elements of a JSON array after the opening bracket (at least one
element present). -/
def parseElems : Nat → List Char → List Json → Option (Json × List Char)
  | 0, _, _ => none
  | fuel + 1, cs, acc =>
    match parseValue fuel cs with
    | none => none
    | some (v, r1) =>
      match skipWs r1 with
      | ',' :: r2 => parseElems fuel r2 (acc ++ [v])
      | ']' :: r2 => some (.arr (acc ++ [v]), r2)
      | _ => none

end

/-- json.loads: a single JSON document covering the whole input. -/
def parseJsonText (s : String) : Option Json :=
  match parseValue (s.length + 1) s.toList with
  | some (v, rest) => if (skipWs rest).isEmpty then some v else none
  | none => none

/-- utils.extract_json_from_text: take the greedy brace-delimited span
(first opening brace to last closing brace), parse it with json.loads;
None when there is no span or parsing fails.  The return type is
Optional[Dict[str, Any]] in the source; a span that starts with an
opening brace can only parse to an object, so the dict is returned
directly. -/
def extract_json_from_text (text : String) : Option JDict :=
  match jsonSpan text with
  | none => none
  | some span =>
    match parseJsonText span with
    | some (.obj kvs) => some kvs
    | _ => none

/-! ### schemas.py: the structured result and its pydantic validation -/

structure SubsidyIdentification where
  organismo_emisor : String
  titulo_convocatoria : String
  base_reguladora : String

structure SubsidyDetails where
  beneficiarios : List String
  finalidad_ayuda : String

structure EconomicConditions where
  presupuesto_total : String
  distribucion_territorial : Option (List (String × String))
  cuantia_por_solicitud : String

structure DeadlinesAndProcedure where
  plazo_presentacion : String
  plazo_resolucion : String
  medio_presentacion : String
  enlace_tramite : Option String

structure SubsidyAnalysisResult where
  identificacion : SubsidyIdentification
  detalles : SubsidyDetails
  condiciones_economicas : EconomicConditions
  plazos_procedimiento : DeadlinesAndProcedure
  metadata : JDict

def asStr : Json → Option String
  | .str s => some s
  | _ => none

/-- A required str field: present and a string. -/
def reqStr (d : JDict) (key : String) : Option String :=
  (getKey d key).bind asStr

/-- An Optional[str] field: absent or null gives None; a string gives
the string; anything else fails validation. -/
def optStr (d : JDict) (key : String) : Option (Option String) :=
  match getKey d key with
  | none => some none
  | some .null => some none
  | some (.str s) => some (some s)
  | some _ => none

def asListStr : Json → Option (List String)
  | .arr xs => xs.mapM asStr
  | _ => none

def asStrPairs : Json → Option (List (String × String))
  | .obj kvs => kvs.mapM (fun kv => (asStr kv.2).map (fun s => (kv.1, s)))
  | _ => none

def validateIdentificacion (j : Json) : Option SubsidyIdentification :=
  match j with
  | .obj d => do
    let a ← reqStr d "organismo_emisor"
    let b ← reqStr d "titulo_convocatoria"
    let c ← reqStr d "base_reguladora"
    some ⟨a, b, c⟩
  | _ => none

def validateDetalles (j : Json) : Option SubsidyDetails :=
  match j with
  | .obj d => do
    let b ← (getKey d "beneficiarios").bind asListStr
    let f ← reqStr d "finalidad_ayuda"
    some ⟨b, f⟩
  | _ => none

def validateCondiciones (j : Json) : Option EconomicConditions :=
  match j with
  | .obj d => do
    let p ← reqStr d "presupuesto_total"
    let t ← match getKey d "distribucion_territorial" with
      | none => some none
      | some .null => some none
      | some v => (asStrPairs v).map some
    let c ← reqStr d "cuantia_por_solicitud"
    some ⟨p, t, c⟩
  | _ => none

def validatePlazos (j : Json) : Option DeadlinesAndProcedure :=
  match j with
  | .obj d => do
    let a ← reqStr d "plazo_presentacion"
    let b ← reqStr d "plazo_resolucion"
    let c ← reqStr d "medio_presentacion"
    let e ← optStr d "enlace_tramite"
    some ⟨a, b, c, e⟩
  | _ => none

/-- SubsidyAnalysisResult(**kvs): the four required sub-records must be
present and validate; metadata defaults to an empty dict; extra keys are
ignored (pydantic model_config default). -/
def validateStructured (kvs : JDict) : Option SubsidyAnalysisResult := do
  let i ← (getKey kvs "identificacion").bind validateIdentificacion
  let d ← (getKey kvs "detalles").bind validateDetalles
  let c ← (getKey kvs "condiciones_economicas").bind validateCondiciones
  let p ← (getKey kvs "plazos_procedimiento").bind validatePlazos
  let m ← match getKey kvs "metadata" with
    | none => some ([] : JDict)
    | some (.obj md) => some md
    | some _ => none
  some ⟨i, d, c, p, m⟩

/-! ### The run state (schemas.SubsidyState) -/

/-- One entry of state pdf_urls: the dict built by find_pdf_urls_node.
name and id keep the raw values coming from the registry payload. -/
structure PdfRef where
  url : String
  name : Json
  id : Json

/-- One entry of state pdf_texts, built by download_pdfs_node. -/
structure PdfText where
  filename : String
  text : String
  path : String

/-- schemas.SubsidyState.  bdns_code and source_url hold whatever value
the caller or the data bag supplied (str for bdns_code in the driver
entry points, possibly any JSON value through the data bag), so both
are modelled as Json; Json.null stands for Python None. -/
structure SubsidyState where
  bdns_code : Json
  source_url : Json
  subsidy_data : JDict
  pdf_urls : List PdfRef
  pdf_texts : List PdfText
  pdf_count : Nat
  analysis_result : Option SubsidyAnalysisResult
  raw_analysis : Option JDict
  error : Option String
  logs : List String
  processing_time : Option Nat

/-! ### The oracle environment (HTTP, PDF extraction, LLM, clock) -/

/-- Outcome of the registry GET: a raised network exception, or a
response with a status code and, for bodies that decode as a JSON
object, the decoded dict (none models response.json() raising). -/
inductive RegistryResult where
  | netExc (msg : String)
  | resp (status : Nat) (body : Option JDict)

/-- Outcome of a document GET: a raised exception, or a response with a
status code and raw content bytes. -/
inductive DownloadResult where
  | netExc (msg : String)
  | resp (status : Nat) (content : List Nat)

/-- Outcome of PyPDF2 text extraction on given bytes: a raised
exception, or the per-page extracted texts in page order. -/
inductive ExtractResult where
  | exc (msg : String)
  | pages (ps : List String)

/-- The collaborators of one run.  registry and download are keyed by
the full request URL.  llm models LanguageModel.invoke: an exception,
or the completion text together with the token-usage list.  now is the
metadata timestamp (datetime.now().isoformat()) and nowStamp the
filename timestamp (strftime).  File writes are assumed to succeed. -/
structure Env where
  registry : String → RegistryResult
  download : String → DownloadResult
  extractPdf : List Nat → ExtractResult
  llm : Except String (String × List JDict)
  model_name : String
  now : String
  nowStamp : String

/-! ### nodes.py -/

/-- The data-bag code lookup of extract_bdns_node:
subsidy_data.get("codigo_bdns") or subsidy_data.get("bdns_code"). -/
def dataBagCode (st : SubsidyState) : Json :=
  pyOrJ (getKey st.subsidy_data "codigo_bdns") (getKey st.subsidy_data "bdns_code")

/-- Shared tail of extract_bdns_node once the URL source yielded
nothing: try the data bag, else record the hard error. -/
def extractFromData (st : SubsidyState) : SubsidyState :=
  let d := dataBagCode st
  if d.truthy then
    { st with bdns_code := d, logs := st.logs ++ ["BDNS code: " ++ d.pyStr] }
  else
    { st with error := some "No BDNS code could be extracted" }

/-- nodes.extract_bdns_node.  Priority: an already-truthy bdns_code is
kept; else a truthy source_url is scanned for a trailing numeric
segment; else the data bag is consulted.  A truthy non-string
source_url makes re.search raise TypeError, caught by the node's
handler (exception text approximated). -/
def extract_bdns_node (st : SubsidyState) : SubsidyState :=
  if st.bdns_code.truthy then
    { st with logs := st.logs ++ ["BDNS code: " ++ st.bdns_code.pyStr] }
  else if st.source_url.truthy then
    match st.source_url with
    | .str u =>
      match extract_bdns_from_url u with
      | some c =>
        { st with bdns_code := .str c, logs := st.logs ++ ["BDNS code: " ++ c] }
      | none => extractFromData st
    | _ =>
      { st with error := some "Error extracting BDNS: expected string or bytes-like object" }
  else extractFromData st

/-- The registry query URL of fetch_subsidy_info_node. -/
def apiURL (bdns : Json) : String :=
  "https://www.subvenciones.gob.es/bdnstrans/api/convocatorias?numConv="
    ++ bdns.pyStr ++ "&vpd=GE"

/-- nodes.fetch_subsidy_info_node.  HTTP 200 with a JSON-object body is
shallow-merged into subsidy_data; any other status is only logged; a
raised exception (network failure, or a 200 body that fails to decode)
is caught by the node handler, which sets error. -/
def fetch_subsidy_info_node (env : Env) (st : SubsidyState) : SubsidyState :=
  if !st.bdns_code.truthy then
    { st with error := some "No BDNS code available for API call" }
  else
    match env.registry (apiURL st.bdns_code) with
    | .netExc m => { st with error := some ("Error fetching subsidy info: " ++ m) }
    | .resp status body =>
      if status == 200 then
        match body with
        | some data =>
          { st with subsidy_data := dictUpdate st.subsidy_data data,
                    logs := st.logs ++ ["API data fetched successfully"] }
        | none =>
          { st with error := some "Error fetching subsidy info: response body is not valid JSON" }
      else
        { st with logs := st.logs ++ ["API call failed with status: " ++ toString status] }

/-- doc.get(key) on a document descriptor; a non-dict descriptor has no
get attribute (AttributeError). -/
def jget (doc : Json) (key : String) : Option Json :=
  match doc with
  | .obj kvs => getKey kvs key
  | _ => none

/-- doc.get('nombreFic') or doc.get('nombre') or doc.get('name') or 'Unknown'. -/
def docNameSel (doc : Json) : Json :=
  pyOrD (jget doc "nombreFic")
    (pyOrD (jget doc "nombre") (pyOrD (jget doc "name") (.str "Unknown")))

/-- doc.get('tipo') or doc.get('type') or ''. -/
def docTypeSel (doc : Json) : Json :=
  pyOrD (jget doc "tipo") (pyOrD (jget doc "type") (.str ""))

/-- doc_type == 'PDF' (Python equality with a string literal). -/
def docTypeIsPDF (doc : Json) : Bool :=
  match docTypeSel doc with
  | .str s => s == "PDF"
  | _ => false

/-- The fixed document-retrieval URL for one candidate. -/
def docURL (bdns : Json) (docId : Json) : String :=
  "https://www.subvenciones.gob.es/bdnstrans/GE/es/convocatoria/"
    ++ bdns.pyStr ++ "/document/" ++ docId.pyStr

/-- Candidate construction for one descriptor, once classified: kept
only when doc.get('id') is truthy. -/
def refIfId (bdns : Json) (nm : Json) (doc : Json) : Option PdfRef :=
  match jget doc "id" with
  | some iv => if iv.truthy then some ⟨docURL bdns iv, nm, iv⟩ else none
  | none => none

/-- Loop body of find_pdf_urls_node for one descriptor.  Short-circuit
as in the source: doc_type == 'PDF' is tested first; only when it is
false is doc_name.lower() evaluated, which raises for a truthy
non-string name (and doc.get raises for a non-dict descriptor). -/
def classifyDoc (bdns : Json) (doc : Json) : Except String (Option PdfRef) :=
  match doc with
  | .obj _ =>
    let nm := docNameSel doc
    if docTypeIsPDF doc then .ok (refIfId bdns nm doc)
    else
      match nm with
      | .str s =>
        if containsSub "pdf".toList (pyLower s).toList then .ok (refIfId bdns nm doc)
        else .ok none
      | _ => .error "lower is not an attribute of this value"
  | _ => .error "document descriptor is not a dict"

/-- The loop of find_pdf_urls_node over the documentos collection:
classified candidates are appended in collection order; a raised
exception aborts the scan. -/
def collectRefs (bdns : Json) : List Json → Except String (List PdfRef)
  | [] => .ok []
  | doc :: rest => do
    let o ← classifyDoc bdns doc
    let os ← collectRefs bdns rest
    pure (match o with
      | some r => r :: os
      | none => os)

/-- nodes.find_pdf_urls_node.  A missing or falsy documentos entry
yields an empty candidate list (not an error); a raised exception while
scanning is caught by the node handler, which sets error and leaves
pdf_urls untouched. -/
def find_pdf_urls_node (st : SubsidyState) : SubsidyState :=
  match getKey st.subsidy_data "documentos" with
  | some v =>
    if v.truthy then
      match v with
      | .arr docs =>
        match collectRefs st.bdns_code docs with
        | .ok refs =>
          { st with pdf_urls := refs,
                    logs := st.logs ++ ["Found " ++ toString refs.length ++ " PDFs"] }
        | .error m => { st with error := some ("Error finding PDFs: " ++ m) }
      | _ => { st with error := some "Error finding PDFs: object is not iterable" }
    else
      { st with pdf_urls := [], logs := st.logs ++ ["Found 0 PDFs"] }
  | none =>
    { st with pdf_urls := [], logs := st.logs ++ ["Found 0 PDFs"] }

/-- Concatenation of per-page texts: text += page.extract_text() + newline. -/
def joinPages (ps : List String) : String :=
  ps.foldl (fun a p => a ++ p ++ "\n") ""

/-- Per-reference body of the download loop of download_pdfs_node:
returns the pdf_texts entry when the reference succeeds end-to-end, and
the warning/error log lines produced on the way (only failure lines are
modelled).  Every failure is caught inside the loop iteration, so one
reference never affects the others. -/
def processRef (env : Env) (bdns : Json) (r : PdfRef) : Option PdfText × List String :=
  match env.download r.url with
  | .netExc m => (none, ["Error downloading " ++ r.name.pyStr ++ ": " ++ m])
  | .resp status content =>
    if status == 200 then
      if validate_pdf_content content then
        match r.name with
        | .str nm =>
          match env.extractPdf content with
          | .exc m => (none, ["Error extracting text from " ++ nm ++ ": " ++ m])
          | .pages ps =>
            let text := joinPages ps
            if pyStrip text != "" then
              (some ⟨nm, text,
                     "downloaded_files/" ++ bdns.pyStr ++ "_" ++ clean_filename nm ++ ".pdf"⟩,
               [])
            else (none, ["No text extracted from " ++ nm])
        | _ =>
          -- clean_filename(doc_name) raises TypeError for a non-string
          -- name; caught by the per-item handler.
          (none, ["Error downloading " ++ r.name.pyStr ++ ": expected string"])
      else (none, ["Downloaded content is not a valid PDF: " ++ r.name.pyStr])
    else
      (none, ["Failed to download " ++ r.name.pyStr ++ ": HTTP " ++ toString status])

/-- nodes.download_pdfs_node.  Returns the updated state together with
the warning/error logger lines of the loop.  pdf_texts collects the
successful entries in reference order; pdf_count counts them. -/
def download_pdfs_node (env : Env) (st : SubsidyState) : SubsidyState × List String :=
  if st.pdf_urls.isEmpty then
    ({ st with pdf_texts := [], pdf_count := 0,
               logs := st.logs ++ ["No PDFs to download"] }, [])
  else
    let results := st.pdf_urls.map (processRef env st.bdns_code)
    let texts := results.filterMap Prod.fst
    ({ st with pdf_texts := texts, pdf_count := texts.length,
               logs := st.logs ++
                 ["Downloaded and processed " ++ toString texts.length ++ " PDFs"] },
     (results.map Prod.snd).flatten)

/-- The metadata record attached after analysis. -/
def mkMetadata (env : Env) (st : SubsidyState) (usage : List JDict) : JDict :=
  [("analysis_date", .str env.now),
   ("subsidy_code", st.bdns_code),
   ("used_pdf", .bool (!st.pdf_texts.isEmpty)),
   ("pdf_count", .num (Int.ofNat st.pdf_texts.length)),
   ("model_used", .str env.model_name),
   ("version", .str "3.0-langgraph"),
   ("token_usage", match usage with
     | u :: _ => .obj u
     | [] => .null)]

/-- The no-recoverable-JSON outcome of analyze_subsidy_node: error set,
raw response preserved for debugging. -/
def analysisFalsy (st : SubsidyState) (text : String) : SubsidyState :=
  { st with error := some "Could not extract valid JSON from LLM response",
            raw_analysis := some [("raw_response", .str text)] }

/-- Metadata attachment and final log line of analyze_subsidy_node:
to analysis_result.metadata when a structured result is present (Python
truthiness of the model object), else merged into a truthy raw_analysis
dict under the metadata key. -/
def attachMetadata (env : Env) (st0 : SubsidyState) (usage : List JDict)
    (st1 : SubsidyState) : SubsidyState :=
  let md := mkMetadata env st0 usage
  let st2 := match st1.analysis_result with
    | some r => { st1 with analysis_result := some { r with metadata := md } }
    | none =>
      match st1.raw_analysis with
      | some d =>
        if d.isEmpty then st1
        else { st1 with raw_analysis := some (dictSet d "metadata" (.obj md)) }
      | none => st1
  { st2 with logs := st2.logs ++ ["LLM analysis completed"] }

/-- nodes.analyze_subsidy_node.  The completion collaborator is invoked
once; a raised exception is caught by the node handler (error set,
nothing else changed).  Otherwise the brace-delimited JSON span of the
response is extracted: a truthy (non-empty) parsed dict is validated
into analysis_result, or routed raw into raw_analysis on validation
failure; a missing span, an unparseable span or an empty parsed dict is
the falsy outcome.  Metadata is then attached and the stage logged.
(Prompt construction has no modelled effect: the completion is an
oracle.) -/
def analyze_subsidy_node (env : Env) (st : SubsidyState) : SubsidyState :=
  match env.llm with
  | .error m => { st with error := some ("Error in LLM analysis: " ++ m) }
  | .ok (text, usage) =>
    let st1 :=
      match extract_json_from_text text with
      | some kvs =>
        if kvs.isEmpty then analysisFalsy st text
        else
          match validateStructured kvs with
          | some r => { st with analysis_result := some r }
          | none => { st with raw_analysis := some kvs }
      | none => analysisFalsy st text
    attachMetadata env st usage st1

/-- nodes.save_results_node.  A no-op (logged only through the module
logger) when no result is present or bdns_code is falsy; otherwise the
result is serialized to a timestamped file and the path is logged into
state logs.  File writes are assumed to succeed. -/
def save_results_node (env : Env) (st : SubsidyState) : SubsidyState :=
  let hasResult :=
    (match st.analysis_result with
     | some _ => true
     | none => false) ||
    (match st.raw_analysis with
     | some d => !d.isEmpty
     | none => false)
  if hasResult && st.bdns_code.truthy then
    let indicator :=
      if st.pdf_count > 0 then "_with_" ++ toString st.pdf_count ++ "_PDFs"
      else "_JSON_only"
    let filename :=
      "LangGraph_Analysis_" ++ st.bdns_code.pyStr ++ "_" ++ env.nowStamp
        ++ indicator ++ ".json"
    { st with logs := st.logs ++ ["Results saved to downloaded_files/" ++ filename] }
  else st

/-! ### graph.py: the workflow graph and its driver -/

/-- The six workflow nodes of SubsidyAnalyzerGraph._build_workflow. -/
inductive Stage where
  | extract_bdns : Stage
  | fetch_subsidy_info : Stage
  | find_pdf_urls : Stage
  | download_pdfs : Stage
  | analyze_subsidy : Stage
  | save_results : Stage
deriving DecidableEq, BEq

/-- The edge list of _build_workflow: each stage's unique successor,
none meaning the END sentinel. -/
def nextStage : Stage → Option Stage
  | .extract_bdns => some .fetch_subsidy_info
  | .fetch_subsidy_info => some .find_pdf_urls
  | .find_pdf_urls => some .download_pdfs
  | .download_pdfs => some .analyze_subsidy
  | .analyze_subsidy => some .save_results
  | .save_results => none

/-- The entry point set by _build_workflow. -/
def entryPoint : Stage := .extract_bdns

/-- Dispatch one node function. -/
def runStage (env : Env) : Stage → SubsidyState → SubsidyState
  | .extract_bdns, st => extract_bdns_node st
  | .fetch_subsidy_info, st => fetch_subsidy_info_node env st
  | .find_pdf_urls, st => find_pdf_urls_node st
  | .download_pdfs, st => (download_pdfs_node env st).1
  | .analyze_subsidy, st => analyze_subsidy_node env st
  | .save_results, st => save_results_node env st

/-- The compiled-graph executor: starting from a stage, run the node,
then follow the unique outgoing edge until END, unconditionally — there
is no conditional edge in the graph.  fuel bounds the number of
executed nodes (LangGraph's recursion limit); the result also carries
the trace of executed stages in order. -/
def runFrom (env : Env) : Nat → Stage → SubsidyState → SubsidyState × List Stage
  | 0, _, st => (st, [])
  | fuel + 1, s, st =>
    let st1 := runStage env s st
    match nextStage s with
    | none => (st1, [s])
    | some s2 =>
      let rec2 := runFrom env fuel s2 st1
      (rec2.1, s :: rec2.2)

/-- workflow.invoke(initial_state): run from the entry point with the
default recursion limit of 25. -/
def invokeWorkflow (env : Env) (st : SubsidyState) : SubsidyState × List Stage :=
  runFrom env 25 entryPoint st

/-- The trace every accepted run produces. -/
def sixStages : List Stage :=
  [.extract_bdns, .fetch_subsidy_info, .find_pdf_urls,
   .download_pdfs, .analyze_subsidy, .save_results]

/-- The result dict returned by the driver entry points. -/
structure RunResult where
  success : Bool
  analysis_result : Option SubsidyAnalysisResult
  raw_analysis : Option JDict
  processing_time : Nat
  pdf_count : Nat
  logs : List String
  error : Option String

/-- not bool(final_state.get("error")). -/
def errTruthy : Option String → Bool
  | some s => s != ""
  | none => false

/-- The result dict built from the final state; elapsed is the
wall-clock time measured by the driver. -/
def mkRunResult (st : SubsidyState) (elapsed : Nat) : RunResult :=
  { success := !errTruthy st.error,
    analysis_result := st.analysis_result,
    raw_analysis := st.raw_analysis,
    processing_time := elapsed,
    pdf_count := st.pdf_count,
    logs := st.logs,
    error := st.error }

/-- The initial state of analyze_from_bdns. -/
def initialStateFromBdns (code : String) : SubsidyState :=
  { bdns_code := .str code,
    source_url :=
      .str ("https://www.subvenciones.gob.es/bdnstrans/GE/es/convocatorias/" ++ code),
    subsidy_data := [], pdf_urls := [], pdf_texts := [], pdf_count := 0,
    analysis_result := none, raw_analysis := none, error := none, logs := [],
    processing_time := none }

/-- SubsidyAnalyzerGraph.analyze_from_bdns; the stage trace of the
underlying invocation is returned alongside the result dict. -/
def analyze_from_bdns (env : Env) (code : String) (elapsed : Nat) :
    RunResult × List Stage :=
  let run := invokeWorkflow env (initialStateFromBdns code)
  (mkRunResult run.1 elapsed, run.2)

/-- The initial state of analyze_from_data: bdns_code is the first
truthy of the two recognized code keys, else the empty string;
source_url is taken as-is (None when absent). -/
def initialStateFromData (data : JDict) : SubsidyState :=
  let code := pyOrJ (getKey data "codigo_bdns") (getKey data "bdns_code")
  { bdns_code := if code.truthy then code else .str "",
    source_url := (getKey data "source_url").getD .null,
    subsidy_data := data, pdf_urls := [], pdf_texts := [], pdf_count := 0,
    analysis_result := none, raw_analysis := none, error := none, logs := [],
    processing_time := none }

/-- SubsidyAnalyzerGraph.analyze_from_data: when neither a code key nor
source_url is truthy in the data bag, fail immediately without invoking
the workflow (empty stage trace); otherwise run the workflow. -/
def analyze_from_data (env : Env) (data : JDict) (elapsed : Nat) :
    RunResult × List Stage :=
  let code := pyOrJ (getKey data "codigo_bdns") (getKey data "bdns_code")
  let url := (getKey data "source_url").getD .null
  if !code.truthy && !url.truthy then
    ({ success := false, analysis_result := none, raw_analysis := none,
       processing_time := 0, pdf_count := 0, logs := [],
       error := some "Either bdns_code or source_url must be provided in subsidy_data" },
     [])
  else
    let run := invokeWorkflow env (initialStateFromData data)
    (mkRunResult run.1 elapsed, run.2)

/-- SubsidyAnalyzerGraph.analyze_from_url: resolve the code from the
URL first; an unresolvable URL fails immediately without invoking any
stage. -/
def analyze_from_url (env : Env) (url : String) (elapsed : Nat) :
    RunResult × List Stage :=
  match extract_bdns_from_url url with
  | none =>
    ({ success := false, analysis_result := none, raw_analysis := none,
       processing_time := 0, pdf_count := 0, logs := [],
       error := some ("Could not extract BDNS code from URL: " ++ url) }, [])
  | some code => analyze_from_bdns env code elapsed

/-- Spec-side notion for claim C3: an identifier is derivable from the
data bag when one of the two recognized code keys is truthy, or
source_url is a string with a trailing numeric segment. -/
def identifierDerivable (data : JDict) : Bool :=
  (pyOrJ (getKey data "codigo_bdns") (getKey data "bdns_code")).truthy ||
  (match getKey data "source_url" with
   | some (.str u) => (extract_bdns_from_url u).isSome
   | _ => false)

/-! ### Claim-shaped characterizations (for C7 and C8) -/

/-- The success condition of the Document Acquirer for one reference,
spelled as in the spec: the download responded 200, the bytes carry the
PDF signature, and text extraction produced a non-empty trimmed text
(the name must be a string for the filename step to go through). -/
def acquireOk (env : Env) (_bdns : Json) (r : PdfRef) : Bool :=
  match env.download r.url with
  | .netExc _ => false
  | .resp status content =>
    if status == 200 then
      if validate_pdf_content content then
        match r.name with
        | .str _ =>
          match env.extractPdf content with
          | .exc _ => false
          | .pages ps => pyStrip (joinPages ps) != ""
        | _ => false
      else false
    else false

/-- The pdf_texts entry produced for a successfully acquired reference
(meaningful under acquireOk). -/
def mkAcquired (env : Env) (bdns : Json) (r : PdfRef) : PdfText :=
  let content := match env.download r.url with
    | .resp _ c => c
    | .netExc _ => []
  let ps := match env.extractPdf content with
    | .pages ps => ps
    | .exc _ => []
  let nm := match r.name with
    | .str s => s
    | _ => ""
  { filename := nm, text := joinPages ps,
    path := "downloaded_files/" ++ bdns.pyStr ++ "_" ++ clean_filename nm ++ ".pdf" }

/-- The classification predicate of the Document Locator, spelled as in
the spec: declared type equals the PDF token, or the selected display
name contains pdf case-insensitively. -/
def isPdfCandidate (doc : Json) : Bool :=
  docTypeIsPDF doc ||
  (match docNameSel doc with
   | .str s => containsSub "pdf".toList (pyLower s).toList
   | _ => false)

/-- The candidate produced for one descriptor: present exactly when the
descriptor is classified as a PDF candidate and its id field is truthy. -/
def candRef (bdns : Json) (doc : Json) : Option PdfRef :=
  match jget doc "id" with
  | some iv =>
    if isPdfCandidate doc && iv.truthy then
      some ⟨docURL bdns iv, docNameSel doc, iv⟩
    else none
  | none => none

/-- A well-formed document descriptor: a dict whose selected display
name is a string unless the declared type already equals the PDF token
(otherwise the source raises while lowercasing the name). -/
def wfDoc (doc : Json) : Prop :=
  (∃ kvs, doc = Json.obj kvs) ∧
  (docTypeIsPDF doc = true ∨ ∃ s, docNameSel doc = Json.str s)

/-! ## Helper lemmas -/

theorem getKey_dictSet (d : JDict) (k : String) (v : Json) :
    getKey (dictSet d k v) k = some v := by
  induction d with
  | nil => simp [dictSet, getKey]
  | cons p rest ih =>
    obtain ⟨k1, v1⟩ := p
    by_cases h : k1 == k
    · simp [dictSet, h, getKey]
    · simp [dictSet, getKey, h, ih]

theorem attachMetadata_pdf_count (env : Env) (st0 : SubsidyState)
    (usage : List JDict) (st1 : SubsidyState) :
    (attachMetadata env st0 usage st1).pdf_count = st1.pdf_count := by
  unfold attachMetadata
  cases st1.analysis_result with
  | some r => rfl
  | none =>
    cases st1.raw_analysis with
    | some d =>
      by_cases h : d.isEmpty
      · simp [h]
      · simp [h]
    | none => rfl

theorem analyze_subsidy_node_pdf_count (env : Env) (st : SubsidyState) :
    (analyze_subsidy_node env st).pdf_count = st.pdf_count := by
  unfold analyze_subsidy_node
  cases env.llm with
  | error m => rfl
  | ok p =>
    obtain ⟨text, usage⟩ := p
    dsimp only
    rw [attachMetadata_pdf_count]
    cases extract_json_from_text text with
    | none => rfl
    | some kvs =>
      by_cases h : kvs.isEmpty
      · simp only [h, if_true]
        rfl
      · simp only [h, Bool.false_eq_true, if_false, if_neg]
        cases validateStructured kvs <;> rfl

theorem save_results_node_pdf_count (env : Env) (st : SubsidyState) :
    (save_results_node env st).pdf_count = st.pdf_count := by
  unfold save_results_node
  dsimp only
  split <;> rfl

theorem download_pdfs_node_count_eq (env : Env) (st : SubsidyState) :
    ((download_pdfs_node env st).1).pdf_count
      = ((download_pdfs_node env st).1).pdf_texts.length := by
  unfold download_pdfs_node
  by_cases h : st.pdf_urls.isEmpty <;> simp [h]

theorem collapseSeps_mem (c : Char) (b : Bool) (cs : List Char)
    (hall : ∀ x ∈ cs, isWordChar x || isSepChar x)
    (hc : c ∈ collapseSeps b cs) : isWordChar c = true := by
  induction cs generalizing b with
  | nil => simp [collapseSeps] at hc
  | cons x rest ih =>
    simp only [collapseSeps] at hc
    by_cases hs : isSepChar x
    · rw [if_pos hs] at hc
      cases b with
      | true => exact ih true (fun y hy => hall y (List.mem_cons_of_mem _ hy)) hc
      | false =>
        rcases List.mem_cons.mp hc with h1 | h2
        · subst h1; rfl
        · exact ih true (fun y hy => hall y (List.mem_cons_of_mem _ hy)) h2
    · rw [if_neg hs] at hc
      rcases List.mem_cons.mp hc with h1 | h2
      · subst h1
        have hx := hall c (List.mem_cons_self c rest)
        rcases Bool.or_eq_true_iff.mp hx with hw | hsep
        · exact hw
        · exact absurd hsep hs
      · exact ih false (fun y hy => hall y (List.mem_cons_of_mem _ hy)) h2

/-! ## Concrete fixtures -/

/-- An environment in which every collaborator fails over the network
and the completion collaborator returns plain text. -/
def envOffline : Env :=
  { registry := fun _ => .netExc "offline",
    download := fun _ => .netExc "offline",
    extractPdf := fun _ => .exc "no extractor",
    llm := .ok ("plain text answer", []),
    model_name := "test-model",
    now := "2026-01-01T00:00:00",
    nowStamp := "20260101_000000" }

/-- An environment whose registry answers 404 with no decodable body. -/
def env404 : Env :=
  { envOffline with registry := fun _ => .resp 404 none }

/-- An environment whose completion collaborator returns a fixed text. -/
def envWithResponse (text : String) : Env :=
  { envOffline with llm := .ok (text, []) }

/-- An environment whose completion collaborator raises. -/
def envLlmRaises : Env :=
  { envOffline with llm := .error "boom" }

/-- A state with a resolved identifier and everything else empty. -/
def stResolved : SubsidyState :=
  { bdns_code := .str "845133", source_url := .null, subsidy_data := [],
    pdf_urls := [], pdf_texts := [], pdf_count := 0, analysis_result := none,
    raw_analysis := none, error := none, logs := [], processing_time := none }

/-- A data bag whose source_url has no trailing numeric segment and
which has no code key: no identifier is derivable from it. -/
def dataNoId : JDict := [("source_url", .str "https://example.com/page")]

/-! ## Claims -/

/-- C1: for every initial RunState accepted into the pipeline, each of
the six stages runs exactly once in the fixed order, regardless of the
error field or any other part of the state — the graph has a single
unconditional edge out of each stage, so no stage is skipped or
re-entered. -/
theorem all_six_stages_run_once (env : Env) (st : SubsidyState) :
    (invokeWorkflow env st).2 = sixStages ∧
    ∀ s : Stage, ((invokeWorkflow env st).2).count s = 1 := by
  refine ⟨rfl, ?_⟩
  intro s
  cases s <;> rfl

/-- C5: at the end of the Document Acquirer stage, pdf_count equals the
length of pdf_texts, and the two later stages (analysis, persistence)
never change pdf_count. -/
theorem document_count_matches_texts (env : Env) (st later : SubsidyState) :
    ((download_pdfs_node env st).1).pdf_count
        = ((download_pdfs_node env st).1).pdf_texts.length ∧
    (analyze_subsidy_node env later).pdf_count = later.pdf_count ∧
    (save_results_node env later).pdf_count = later.pdf_count :=
  ⟨download_pdfs_node_count_eq env st,
   analyze_subsidy_node_pdf_count env later,
   save_results_node_pdf_count env later⟩

/-- C9: the filename sanitizer turns the given title into an
alphanumeric/underscore string without leading or trailing underscores,
and in general its output has length at most 50 and consists only of
word characters (non-word/non-space/non-hyphen characters stripped,
separator runs collapsed to single underscores, truncation to 50). -/
theorem clean_filename_sanitizes :
    clean_filename "Orden Ministerial (2024) — Bases!" = "Orden_Ministerial_2024_Bases" ∧
    (clean_filename "Orden Ministerial (2024) — Bases!").front ≠ '_' ∧
    (clean_filename "Orden Ministerial (2024) — Bases!").back ≠ '_' ∧
    (∀ s : String, (clean_filename s).length ≤ 50) ∧
    (∀ s : String, ∀ c ∈ (clean_filename s).toList, isWordChar c = true) := by
  refine ⟨rfl, by decide, by decide, ?_, ?_⟩
  · intro s
    exact List.length_take_le 50 _
  · intro s c hc
    have hsub : (clean_filename s).toList
        ⊆ collapseSeps false
            (s.toList.filter fun x => isWordChar x || isSepChar x) :=
      List.take_subset 50 _
    exact collapseSeps_mem c false _
      (fun x hx => (List.mem_filter.mp hx).2) (hsub hc)

/-- C2 counterexample: with a resolved identifier, a network failure
during the registry GET does set the error field (the claim says the
stage never sets it and only appends to logs — here nothing is appended
to logs either). -/
theorem registry_network_failure_sets_error :
    (fetch_subsidy_info_node envOffline stResolved).error
      = some "Error fetching subsidy info: offline" ∧
    (fetch_subsidy_info_node envOffline stResolved).logs = [] :=
  ⟨rfl, rfl⟩

/-- C2 amended: with a resolved identifier, a non-200 registry response
only appends a log entry — error and the data mapping are untouched —
while a network failure (a raised exception) sets error to a
descriptive string and leaves data and logs untouched; in both cases
the run continues with the data it already had. -/
theorem registry_fetch_error_policy (env : Env) (st : SubsidyState)
    (hb : st.bdns_code.truthy = true) :
    (∀ status body, env.registry (apiURL st.bdns_code) = .resp status body →
       status ≠ 200 →
       fetch_subsidy_info_node env st
         = { st with logs := st.logs ++ ["API call failed with status: " ++ toString status] }) ∧
    (∀ m, env.registry (apiURL st.bdns_code) = .netExc m →
       fetch_subsidy_info_node env st
         = { st with error := some ("Error fetching subsidy info: " ++ m) }) := by
  constructor
  · intro status body hreg hs
    have hs2 : (status == 200) = false := by simpa using hs
    simp [fetch_subsidy_info_node, hb, hreg, hs2]
  · intro m hreg
    simp [fetch_subsidy_info_node, hb, hreg]

theorem registry_fetch_error_policy_witness :
    fetch_subsidy_info_node env404 stResolved
      = { stResolved with logs := ["API call failed with status: 404"] } ∧
    fetch_subsidy_info_node envOffline stResolved
      = { stResolved with error := some "Error fetching subsidy info: offline" } :=
  ⟨(registry_fetch_error_policy env404 stResolved rfl).1 404 none rfl (by decide),
   (registry_fetch_error_policy envOffline stResolved rfl).2 "offline" rfl⟩

/-- C3 counterexample: a data bag carrying only a source_url with no
trailing numeric segment yields no derivable identifier, yet the run is
accepted and all six stages execute (the resolver sets the error inside
the pipeline); the claim requires that no stage be invoked. -/
theorem underivable_data_still_runs_stages :
    identifierDerivable dataNoId = false ∧
    (analyze_from_data envOffline dataNoId 5).2 = sixStages ∧
    (analyze_from_data envOffline dataNoId 5).1.success = false ∧
    (analyze_from_data envOffline dataNoId 5).1.error ≠ none :=
  ⟨rfl, rfl, rfl, by decide⟩

/-- C3 amended: the data entry point rejects a run — success false,
non-empty error, zero processing_time, no stage invoked — exactly when
neither recognized code key nor source_url is truthy in the data bag;
whenever either is present the run executes all six stages (even if no
identifier is ultimately derivable, in which case the resolver sets
error inside the pipeline); in particular every data bag with a
derivable identifier runs all six stages. -/
theorem entry_gating_from_data (env : Env) (data : JDict) (elapsed : Nat) :
    ((pyOrJ (getKey data "codigo_bdns") (getKey data "bdns_code")).truthy = false →
     ((getKey data "source_url").getD .null).truthy = false →
     analyze_from_data env data elapsed
       = ({ success := false, analysis_result := none, raw_analysis := none,
            processing_time := 0, pdf_count := 0, logs := [],
            error := some "Either bdns_code or source_url must be provided in subsidy_data" },
          [])) ∧
    ((pyOrJ (getKey data "codigo_bdns") (getKey data "bdns_code")).truthy = true ∨
     ((getKey data "source_url").getD .null).truthy = true →
     (analyze_from_data env data elapsed).2 = sixStages) := by
  constructor
  · intro h1 h2
    simp [analyze_from_data, h1, h2]
  · intro h
    have hc : (!(pyOrJ (getKey data "codigo_bdns") (getKey data "bdns_code")).truthy &&
               !((getKey data "source_url").getD .null).truthy) = false := by
      rcases h with h | h <;> simp [h]
    simp only [analyze_from_data, hc, Bool.false_eq_true, if_false]
    rfl

theorem entry_gating_from_data_witness :
    analyze_from_data envOffline ([] : JDict) 5
      = ({ success := false, analysis_result := none, raw_analysis := none,
           processing_time := 0, pdf_count := 0, logs := [],
           error := some "Either bdns_code or source_url must be provided in subsidy_data" },
         []) ∧
    (analyze_from_data envOffline [("bdns_code", .str "845133")] 5).2 = sixStages :=
  ⟨(entry_gating_from_data envOffline [] 5).1 rfl rfl,
   (entry_gating_from_data envOffline [("bdns_code", .str "845133")] 5).2 (Or.inl rfl)⟩

/-- C6: the Identifier Resolver takes the identifier from the first
non-empty source in the fixed order: a truthy explicit bdns_code always
wins; else a string source_url with a trailing numeric segment supplies
it; else a truthy code under one of the two recognized keys of the data
bag supplies it. -/
theorem identifier_priority_order (st : SubsidyState) :
    (st.bdns_code.truthy = true →
       (extract_bdns_node st).bdns_code = st.bdns_code) ∧
    (st.bdns_code.truthy = false → ∀ u c, st.source_url = .str u →
       extract_bdns_from_url u = some c →
       (extract_bdns_node st).bdns_code = .str c) ∧
    (st.bdns_code.truthy = false →
       (st.source_url.truthy = false ∨
        ∃ u, st.source_url = .str u ∧ extract_bdns_from_url u = none) →
       (dataBagCode st).truthy = true →
       (extract_bdns_node st).bdns_code = dataBagCode st) := by
  refine ⟨?_, ?_, ?_⟩
  · intro hb
    simp [extract_bdns_node, hb]
  · intro hb u c hsu hex
    by_cases hu : u = ""
    · rw [hu] at hex
      exact Option.noConfusion hex
    · have hut : (Json.str u).truthy = true := by
        simpa [Json.truthy] using hu
      simp [extract_bdns_node, hb, hsu, hut, hex]
  · intro hb hurl hd
    have hdata : (extractFromData st).bdns_code = dataBagCode st := by
      simp [extractFromData, hd]
    rcases hurl with h | ⟨u, hsu, hex⟩
    · simp [extract_bdns_node, hb, h, hdata]
    · by_cases hu : u = ""
      · have htr : st.source_url.truthy = false := by
          rw [hsu, hu]
          rfl
        simp [extract_bdns_node, hb, htr, hdata]
      · have hut : (Json.str u).truthy = true := by
          simpa [Json.truthy] using hu
        simp [extract_bdns_node, hb, hsu, hut, hex, hdata]

/-- A state offering all three identifier sources at once. -/
def stAllSources : SubsidyState :=
  { stResolved with bdns_code := .str "999",
                    source_url := .str "https://x.example/123",
                    subsidy_data := [("codigo_bdns", .str "777")] }

/-- Like stAllSources but with no explicit code, so the URL wins. -/
def stUrlSource : SubsidyState :=
  { stAllSources with bdns_code := Json.str "" }

/-- Like stAllSources but with no explicit code and an unparseable URL,
so the data bag wins. -/
def stDataSource : SubsidyState :=
  { stUrlSource with source_url := Json.str "https://x.example/page" }

theorem identifier_priority_order_witness :
    (extract_bdns_node stAllSources).bdns_code = .str "999" ∧
    (extract_bdns_node stUrlSource).bdns_code = .str "123" ∧
    (extract_bdns_node stDataSource).bdns_code = .str "777" :=
  ⟨(identifier_priority_order stAllSources).1 rfl,
   (identifier_priority_order stUrlSource).2.1
     rfl "https://x.example/123" "123" rfl rfl,
   (identifier_priority_order stDataSource).2.2
     rfl (Or.inr ⟨"https://x.example/page", rfl, rfl⟩) rfl⟩

theorem processRef_fst (env : Env) (b : Json) (r : PdfRef) :
    (processRef env b r).1
      = if acquireOk env b r then some (mkAcquired env b r) else none := by
  unfold processRef acquireOk mkAcquired
  cases hd : env.download r.url with
  | netExc m => rfl
  | resp status content =>
    by_cases h200 : (status == 200) = true
    · by_cases hval : validate_pdf_content content = true
      · cases hn : r.name with
        | str nm =>
          cases he : env.extractPdf content with
          | exc m => simp [h200, hval, he]
          | pages ps =>
            by_cases ht : (pyStrip (joinPages ps) != "") = true
            · simp [h200, hval, he, ht]
            · simp [h200, hval, he, ht]
        | null => simp [h200, hval]
        | bool x => simp [h200, hval]
        | num x => simp [h200, hval]
        | arr x => simp [h200, hval]
        | obj x => simp [h200, hval]
      · simp [h200, hval]
    · simp [h200]

theorem processRef_snd_of_fail (env : Env) (b : Json) (r : PdfRef)
    (hfail : acquireOk env b r = false) : (processRef env b r).2 ≠ [] := by
  unfold processRef
  unfold acquireOk at hfail
  cases hd : env.download r.url with
  | netExc m => simp
  | resp status content =>
    rw [hd] at hfail
    by_cases h200 : (status == 200) = true
    · by_cases hval : validate_pdf_content content = true
      · cases hn : r.name with
        | str nm =>
          rw [hn] at hfail
          cases he : env.extractPdf content with
          | exc m => simp [h200, hval, he]
          | pages ps =>
            simp only [h200, hval, if_true] at hfail
            rw [he] at hfail
            have htrim : pyStrip (joinPages ps) = "" := by
              simpa using hfail
            simp [h200, hval, he, htrim]
        | null => simp [h200, hval]
        | bool x => simp [h200, hval]
        | num x => simp [h200, hval]
        | arr x => simp [h200, hval]
        | obj x => simp [h200, hval]
      · simp [h200, hval]
    · simp [h200]

/-- C7: the Document Acquirer treats every reference independently: a
reference contributes an entry to pdf_texts exactly when its download
returned HTTP 200, the bytes begin with the PDF signature, and the
extracted text is non-empty after trimming; all other outcomes leave no
entry (no placeholder) and produce at least one logger line, one
reference never affects the others, and entries appear in the order of
the successful subsequence of pdf_urls. -/
theorem acquirer_per_item_filtering (env : Env) (st : SubsidyState) :
    ((download_pdfs_node env st).1).pdf_texts
      = st.pdf_urls.filterMap
          (fun r => if acquireOk env st.bdns_code r
                    then some (mkAcquired env st.bdns_code r) else none) ∧
    ∀ r ∈ st.pdf_urls, acquireOk env st.bdns_code r = false →
      (processRef env st.bdns_code r).2 ≠ [] := by
  constructor
  · unfold download_pdfs_node
    by_cases h : st.pdf_urls.isEmpty
    · have he : st.pdf_urls = [] := List.isEmpty_iff.mp h
      simp [h, he]
    · have hfun : (Prod.fst ∘ processRef env st.bdns_code)
          = fun r => if acquireOk env st.bdns_code r
                     then some (mkAcquired env st.bdns_code r) else none :=
        funext (fun r => processRef_fst env st.bdns_code r)
      simp [h, hfun]
  · intro r _ hfail
    exact processRef_snd_of_fail env st.bdns_code r hfail

/-- Two document references: refA succeeds end-to-end, refB gets a 404. -/
def refA : PdfRef := ⟨"https://docs.example/u1", .str "Doc One.pdf", .str "1"⟩

def refB : PdfRef := ⟨"https://docs.example/u2", .str "Doc Two.pdf", .str "2"⟩

/-- An environment where only refA's URL downloads a valid PDF. -/
def envDocs : Env :=
  { envOffline with
    download := fun url =>
      if url == "https://docs.example/u1" then .resp 200 [37, 80, 68, 70, 49]
      else .resp 404 [],
    extractPdf := fun _ => .pages ["hello"] }

def stDocs : SubsidyState := { stResolved with pdf_urls := [refA, refB] }

theorem acquirer_per_item_filtering_witness :
    acquireOk envDocs stDocs.bdns_code refB = false ∧
    (processRef envDocs stDocs.bdns_code refB).2 ≠ [] ∧
    ((download_pdfs_node envDocs stDocs).1).pdf_texts
      = [⟨"Doc One.pdf", "hello\n", "downloaded_files/845133_Doc_Onepdf.pdf"⟩] :=
  ⟨rfl,
   (acquirer_per_item_filtering envDocs stDocs).2 refB
     (List.mem_cons_of_mem _ (List.mem_cons_self _ _)) rfl,
   rfl⟩

theorem refIfId_eq_candRef (bdns : Json) (doc : Json)
    (hc : isPdfCandidate doc = true) :
    refIfId bdns (docNameSel doc) doc = candRef bdns doc := by
  unfold refIfId candRef
  cases jget doc "id" with
  | none => rfl
  | some iv => simp [hc]

theorem classifyDoc_wf (bdns : Json) (doc : Json) (hwf : wfDoc doc) :
    classifyDoc bdns doc = .ok (candRef bdns doc) := by
  obtain ⟨⟨kvs, hobj⟩, hname⟩ := hwf
  subst hobj
  unfold classifyDoc
  dsimp only
  by_cases hty : docTypeIsPDF (Json.obj kvs) = true
  · have hc : isPdfCandidate (Json.obj kvs) = true := by
      unfold isPdfCandidate
      simp [hty]
    simp only [hty, if_true]
    rw [refIfId_eq_candRef bdns (Json.obj kvs) hc]
  · rcases hname with hty2 | ⟨s, hs⟩
    · exact absurd hty2 hty
    · have hty0 : docTypeIsPDF (Json.obj kvs) = false := by simpa using hty
      simp only [hty0, Bool.false_eq_true, if_false, if_neg]
      rw [hs]
      by_cases hsub : containsSub "pdf".toList (pyLower s).toList = true
      · have hc : isPdfCandidate (Json.obj kvs) = true := by
          unfold isPdfCandidate
          rw [hs]
          dsimp only
          rw [hsub, Bool.or_true]
        simp only [hsub, if_true]
        rw [← hs]
        exact congrArg Except.ok (refIfId_eq_candRef bdns (Json.obj kvs) hc)
      · have hsub0 : containsSub "pdf".toList (pyLower s).toList = false := by
          simpa using hsub
        have hcf : isPdfCandidate (Json.obj kvs) = false := by
          unfold isPdfCandidate
          rw [hs]
          dsimp only
          rw [hsub0, hty0]
          rfl
        simp only [hsub0, Bool.false_eq_true, if_false, if_neg]
        unfold candRef
        cases jget (Json.obj kvs) "id" with
        | none => rfl
        | some iv => simp [hcf]

theorem collectRefs_wf (bdns : Json) (docs : List Json)
    (h : ∀ d ∈ docs, classifyDoc bdns d = .ok (candRef bdns d)) :
    collectRefs bdns docs = .ok (docs.filterMap (candRef bdns)) := by
  induction docs with
  | nil => rfl
  | cons d rest ih =>
    have hd := h d (List.mem_cons_self d rest)
    have hrest := ih (fun x hx => h x (List.mem_cons_of_mem _ hx))
    unfold collectRefs
    rw [hd, hrest]
    simp only [List.filterMap_cons]
    cases candRef bdns d <;> rfl

/-- C8 counterexample: a descriptor with declared type PDF and a present
but empty id field is not turned into a candidate — the source requires
a truthy id, not merely a present one. -/
def docEmptyId : Json :=
  .obj [("tipo", .str "PDF"), ("nombreFic", .str "Bases.pdf"), ("id", .str "")]

def stEmptyId : SubsidyState :=
  { stResolved with subsidy_data := [("documentos", .arr [docEmptyId])] }

theorem present_empty_id_not_candidate :
    jget docEmptyId "id" = some (.str "") ∧
    docTypeIsPDF docEmptyId = true ∧
    (find_pdf_urls_node stEmptyId).pdf_urls = [] :=
  ⟨rfl, rfl, rfl⟩

/-- C8 amended: over a documents collection of well-formed descriptors,
an entry contributes a candidate exactly when its declared type equals
the PDF token or its display name contains pdf case-insensitively, and
its id field is present and truthy (a present but empty id is
skipped); candidates keep collection order, with the templated URL and
the selected display name. -/
theorem pdf_classification (st : SubsidyState) (docs : List Json)
    (hdocs : getKey st.subsidy_data "documentos" = some (Json.arr docs))
    (hwf : ∀ d ∈ docs, wfDoc d) :
    (find_pdf_urls_node st).pdf_urls = docs.filterMap (candRef st.bdns_code) := by
  have hcoll := collectRefs_wf st.bdns_code docs
    (fun d hd => classifyDoc_wf st.bdns_code d (hwf d hd))
  unfold find_pdf_urls_node
  rw [hdocs]
  by_cases he : docs.isEmpty
  · have hnil : docs = [] := List.isEmpty_iff.mp he
    subst hnil
    simp [Json.truthy]
  · have htr : (Json.arr docs).truthy = true := by
      simp [Json.truthy, he]
    simp [htr, hcoll]

/-- Scenario B of the spec: one PDF descriptor with id 7 under
identifier 845133. -/
def docScenarioB : Json :=
  .obj [("tipo", .str "PDF"), ("nombreFic", .str "Bases.pdf"), ("id", .str "7")]

def stScenarioB : SubsidyState :=
  { stResolved with subsidy_data := [("documentos", .arr [docScenarioB])] }

set_option maxRecDepth 4000 in
theorem pdf_classification_witness :
    (find_pdf_urls_node stScenarioB).pdf_urls
      = [⟨"https://www.subvenciones.gob.es/bdnstrans/GE/es/convocatoria/845133/document/7",
          .str "Bases.pdf", .str "7"⟩] ∧
    strEndsWith "https://www.subvenciones.gob.es/bdnstrans/GE/es/convocatoria/845133/document/7"
        "/845133/document/7" = true := by
  constructor
  · rw [pdf_classification stScenarioB [docScenarioB] rfl
      (fun d hd => by
        rw [List.mem_singleton.mp hd]
        exact ⟨⟨_, rfl⟩, Or.inl rfl⟩)]
    rfl
  · rfl

/-- C4 counterexample: for the response text consisting of one empty
JSON object, the brace span exists and parses, and shape validation
fails, but the stage does not route the parsed JSON into raw_analysis:
a parsed-but-falsy (empty) dict takes the no-JSON path, setting error
and storing the original text under raw_response — the claim reserves
that outcome for texts with no span at all. -/
theorem parsed_empty_object_takes_error_path :
    jsonSpan "\x7b\x7d" = some "\x7b\x7d" ∧
    extract_json_from_text "\x7b\x7d" = some [] ∧
    validateStructured [] = none ∧
    (analyze_subsidy_node (envWithResponse "\x7b\x7d") stResolved).error
      = some "Could not extract valid JSON from LLM response" ∧
    getKey ((analyze_subsidy_node (envWithResponse "\x7b\x7d") stResolved).raw_analysis.getD [])
        "raw_response" = some (.str "\x7b\x7d") :=
  ⟨rfl, rfl, rfl, rfl, rfl⟩

/-- C4 amended: when the completion call returns, the greedy
brace-delimited span is extracted and parsed; if it parses to a
non-empty object, validation success populates analysis_result and
validation failure routes the parsed JSON (with metadata merged) into
raw_analysis; if there is no span, or the span fails to parse, or it
parses to the empty object, error is set and raw_analysis holds the
original response text under raw_response (plus metadata). -/
theorem analysis_json_routing (env : Env) (st : SubsidyState) (text : String)
    (usage : List JDict)
    (hllm : env.llm = .ok (text, usage))
    (ha : st.analysis_result = none) (hr : st.raw_analysis = none)
    (herr : st.error = none) :
    (∀ kvs r, extract_json_from_text text = some kvs → kvs ≠ [] →
       validateStructured kvs = some r →
       (analyze_subsidy_node env st).analysis_result
           = some { r with metadata := mkMetadata env st usage } ∧
       (analyze_subsidy_node env st).raw_analysis = none ∧
       (analyze_subsidy_node env st).error = none) ∧
    (∀ kvs, extract_json_from_text text = some kvs → kvs ≠ [] →
       validateStructured kvs = none →
       (analyze_subsidy_node env st).raw_analysis
           = some (dictSet kvs "metadata" (.obj (mkMetadata env st usage))) ∧
       (analyze_subsidy_node env st).analysis_result = none ∧
       (analyze_subsidy_node env st).error = none) ∧
    (extract_json_from_text text = none ∨ extract_json_from_text text = some [] →
       (analyze_subsidy_node env st).error
           = some "Could not extract valid JSON from LLM response" ∧
       (analyze_subsidy_node env st).raw_analysis
           = some [("raw_response", .str text),
                   ("metadata", .obj (mkMetadata env st usage))] ∧
       (analyze_subsidy_node env st).analysis_result = none) := by
  refine ⟨?_, ?_, ?_⟩
  · intro kvs r hext hne hval
    have hkv : kvs.isEmpty = false := by
      cases hk : kvs.isEmpty
      · rfl
      · exact absurd (List.isEmpty_iff.mp hk) hne
    simp only [analyze_subsidy_node, hllm, hext, hkv, hval, Bool.false_eq_true,
      if_false, attachMetadata]
    exact ⟨trivial, hr, herr⟩
  · intro kvs hext hne hval
    have hkv : kvs.isEmpty = false := by
      cases hk : kvs.isEmpty
      · rfl
      · exact absurd (List.isEmpty_iff.mp hk) hne
    simp only [analyze_subsidy_node, hllm, hext, hkv, hval, Bool.false_eq_true,
      if_false, attachMetadata, ha, hkv]
    exact ⟨trivial, trivial, herr⟩
  · intro hcase
    have hred : (analyze_subsidy_node env st)
        = attachMetadata env st usage (analysisFalsy st text) := by
      rcases hcase with hext | hext
      · simp [analyze_subsidy_node, hllm, hext]
      · simp [analyze_subsidy_node, hllm, hext, List.isEmpty_nil]
    rw [hred]
    simp only [attachMetadata, analysisFalsy, ha]
    exact ⟨rfl, rfl, rfl⟩

theorem analysis_json_routing_witness :
    (analyze_subsidy_node (envWithResponse "ok \x7b\"a\": 1\x7d done") stResolved).raw_analysis
      = some [("a", .num 1),
              ("metadata",
               .obj (mkMetadata (envWithResponse "ok \x7b\"a\": 1\x7d done") stResolved []))] :=
  ((analysis_json_routing (envWithResponse "ok \x7b\"a\": 1\x7d done") stResolved
      "ok \x7b\"a\": 1\x7d done" [] rfl rfl rfl rfl).2.1
    [("a", Json.num 1)] rfl (by simp) rfl).1

/-- C10 counterexample: when the completion collaborator raises, the
stage handler catches the exception and returns with error set but with
both analysis_result and raw_analysis still null — the claim requires
exactly one of the two to be non-null whenever the stage returns
without an escaping exception, and no exception escapes here. -/
theorem llm_exception_leaves_both_null :
    (analyze_subsidy_node envLlmRaises stResolved).analysis_result = none ∧
    (analyze_subsidy_node envLlmRaises stResolved).raw_analysis = none ∧
    (analyze_subsidy_node envLlmRaises stResolved).error
      = some "Error in LLM analysis: boom" :=
  ⟨rfl, rfl, rfl⟩

/-- C10 amended: when the Analysis Stage enters with both result fields
null and the completion call returns without raising, exactly one of
analysis_result and raw_analysis is non-null afterwards — the
structured result on validation success, a raw dict in every other case
— and the metadata record is attached to whichever is set; when the
stage catches an exception instead, error is set and both stay null. -/
theorem analysis_exclusive_result (env : Env) (st : SubsidyState) (text : String)
    (usage : List JDict)
    (hllm : env.llm = .ok (text, usage))
    (ha : st.analysis_result = none) (hr : st.raw_analysis = none) :
    ((∃ r, (analyze_subsidy_node env st).analysis_result = some r ∧
        r.metadata = mkMetadata env st usage) ∧
      (analyze_subsidy_node env st).raw_analysis = none) ∨
    ((analyze_subsidy_node env st).analysis_result = none ∧
      ∃ d, (analyze_subsidy_node env st).raw_analysis = some d ∧
        getKey d "metadata" = some (.obj (mkMetadata env st usage))) := by
  cases hext : extract_json_from_text text with
  | none =>
    refine Or.inr ?_
    have hred : (analyze_subsidy_node env st)
        = attachMetadata env st usage (analysisFalsy st text) := by
      simp [analyze_subsidy_node, hllm, hext]
    rw [hred]
    simp only [attachMetadata, analysisFalsy, ha]
    exact ⟨rfl, _, rfl, getKey_dictSet _ _ _⟩
  | some kvs =>
    by_cases hkv : kvs.isEmpty
    · refine Or.inr ?_
      have hred : (analyze_subsidy_node env st)
          = attachMetadata env st usage (analysisFalsy st text) := by
        simp [analyze_subsidy_node, hllm, hext, hkv]
      rw [hred]
      simp only [attachMetadata, analysisFalsy, ha]
      exact ⟨rfl, _, rfl, getKey_dictSet _ _ _⟩
    · have hkv0 : kvs.isEmpty = false := by simpa using hkv
      cases hval : validateStructured kvs with
      | some r =>
        refine Or.inl ?_
        simp only [analyze_subsidy_node, hllm, hext, hkv0, hval, Bool.false_eq_true,
          if_false, attachMetadata]
        exact ⟨⟨_, rfl, rfl⟩, hr⟩
      | none =>
        refine Or.inr ?_
        simp only [analyze_subsidy_node, hllm, hext, hkv0, hval, Bool.false_eq_true,
          if_false, attachMetadata, ha, hkv0]
        exact ⟨trivial, _, rfl, getKey_dictSet _ _ _⟩

theorem analysis_exclusive_result_witness :
    ((∃ r, (analyze_subsidy_node envOffline stResolved).analysis_result = some r ∧
        r.metadata = mkMetadata envOffline stResolved []) ∧
      (analyze_subsidy_node envOffline stResolved).raw_analysis = none) ∨
    ((analyze_subsidy_node envOffline stResolved).analysis_result = none ∧
      ∃ d, (analyze_subsidy_node envOffline stResolved).raw_analysis = some d ∧
        getKey d "metadata" = some (.obj (mkMetadata envOffline stResolved []))) :=
  analysis_exclusive_result envOffline stResolved "plain text answer" [] rfl rfl rfl

end GrantEnricher
